import Mathlib

/-!
Shallow embedding of the `xeez-pyutils` repository:
- `src/pyutils/exceptions.py` (error kinds, FastAPI exception handlers,
  handler registration list),
- `src/src/responses.py` (`ErrorModel`, `ResponseModel`),
- `src/src/xeez_pyutils/sqlalchemy_repository.py` (`SQLAlchemyRepository`).

Python exception handlers are modelled as pure Lean functions (the Python
handlers read only `str(exc)` and fixed literals); the SQLAlchemy session is
modelled as an outcome oracle, and each repository operation returns both its
`Except` result (normal return vs. raised exception) and the ordered trace of
session-level events it performed, so that side-effect-ordering properties
(rollback before raise) can be stated.
-/

namespace XeezPyUtils

/-- `src/src/responses.py`: `ErrorModel(message: str, type: Optional[str] = None)`. -/
structure ErrorModel where
  message : String
  type : Option String := none
deriving DecidableEq, Repr

/-- `src/src/responses.py`: `ResponseModel(success: bool, error: Optional[ErrorModel] = None,
data: Optional[T] = None)`. -/
structure ResponseModel (T : Type) where
  success : Bool
  error : Option ErrorModel := none
  data : Option T := none
deriving DecidableEq, Repr

/-- A FastAPI `Request`. The handlers in `exceptions.py` never inspect it; we keep one
field so that distinct requests exist. -/
structure Request where
  url : String
deriving DecidableEq, Repr

/-- A Python exception instance as seen by a handler: the handlers only ever use
`str(exc)`, so the instance is represented by that string. -/
structure ExcInstance where
  str : String
deriving DecidableEq, Repr

/-- `fastapi.responses.JSONResponse(status_code=..., content=response_model.model_dump())`:
the dumped content of every handler is a `ResponseModel[None]`, whose `data` field is
always absent; we keep the generic `T` and instantiate it at `Unit`. -/
structure JSONResponse (T : Type) where
  status_code : Nat
  content : ResponseModel T
deriving DecidableEq, Repr

/-- `exceptions.py` line 43: handler for `BadValueError`.
Python `text + ":" + str(exc) if str(exc) else text` parses as
`(text + ":" + str(exc)) if str(exc) else text`, and a string is truthy iff non-empty. -/
def bad_value_error_exception_handler (_request : Request) (exc : ExcInstance) :
    JSONResponse Unit :=
  let text := "Bad Value error"
  let message := if exc.str ≠ "" then text ++ ":" ++ exc.str else text
  let error := ErrorModel.mk message (some "BadValueErr")
  let response_model : ResponseModel Unit := { success := false, error := some error }
  { status_code := 400, content := response_model }

/-- `exceptions.py` line 62: handler for `DatabaseIntegrityError`. -/
def database_integrity_error_exception_handler (_request : Request) (exc : ExcInstance) :
    JSONResponse Unit :=
  let text := "Database Integrity error"
  let message := if exc.str ≠ "" then text ++ ":" ++ exc.str else text
  let error := ErrorModel.mk message (some "DatabaseIntegrityErr")
  let response_model : ResponseModel Unit := { success := false, error := some error }
  { status_code := 400, content := response_model }

/-- `exceptions.py` line 83: handler for `DatabaseError`. -/
def database_error_exception_handler (_request : Request) (exc : ExcInstance) :
    JSONResponse Unit :=
  let text := "Database error"
  let message := if exc.str ≠ "" then text ++ ":" ++ exc.str else text
  let error := ErrorModel.mk message (some "DatabaseErr")
  let response_model : ResponseModel Unit := { success := false, error := some error }
  { status_code := 400, content := response_model }

/-- `exceptions.py` line 101: handler for `NotFoundError`. -/
def not_found_exception_handler (_request : Request) (exc : ExcInstance) :
    JSONResponse Unit :=
  let text := "Not found"
  let message := if exc.str ≠ "" then text ++ ":" ++ exc.str else text
  let error := ErrorModel.mk message (some "NotFound")
  let response_model : ResponseModel Unit := { success := false, error := some error }
  { status_code := 404, content := response_model }

/-- `exceptions.py` line 119: handler for `DuplicatedError`. -/
def duplicated_exception_handler (_request : Request) (exc : ExcInstance) :
    JSONResponse Unit :=
  let text := "Duplicated entry"
  let message := if exc.str ≠ "" then text ++ ":" ++ exc.str else text
  let error := ErrorModel.mk message (some "DuplicatedEntry")
  let response_model : ResponseModel Unit := { success := false, error := some error }
  { status_code := 400, content := response_model }

/-- `exceptions.py` line 137: handler for `InternalServerError`. -/
def internal_server_error_exception_handler (_request : Request) (exc : ExcInstance) :
    JSONResponse Unit :=
  let text := "Unknown error"
  let message := if exc.str ≠ "" then text ++ ":" ++ exc.str else text
  let error := ErrorModel.mk message (some "UnknownErr")
  let response_model : ResponseModel Unit := { success := false, error := some error }
  { status_code := 500, content := response_model }

/-- The six exception classes declared in `exceptions.py` lines 7-40. -/
inductive ExceptionKind where
  | BadValueError
  | NotFoundError
  | DuplicatedError
  | InternalServerError
  | DatabaseError
  | DatabaseIntegrityError
deriving DecidableEq, Repr

/-- `exceptions.py` lines 157-164: `exception_to_handler_list`, in the source's
insertion order. -/
def exception_to_handler_list :
    List (ExceptionKind × (Request → ExcInstance → JSONResponse Unit)) :=
  [(.BadValueError, bad_value_error_exception_handler),
   (.NotFoundError, not_found_exception_handler),
   (.DuplicatedError, duplicated_exception_handler),
   (.InternalServerError, internal_server_error_exception_handler),
   (.DatabaseError, database_error_exception_handler),
   (.DatabaseIntegrityError, database_integrity_error_exception_handler)]

/-- The handler registered for a kind: first entry of `exception_to_handler_list`
whose kind matches (exact kind match, as the spec describes lookup). -/
def handlerFor (k : ExceptionKind) :
    Option (Request → ExcInstance → JSONResponse Unit) :=
  (exception_to_handler_list.find? (fun p => decide (p.1 = k))).map Prod.snd

/-- The spec's §3 table, status-code column (this is the spec's claim, to be compared
with the handlers defined from the source). -/
def specStatusOf : ExceptionKind → Nat
  | .BadValueError => 400
  | .NotFoundError => 404
  | .DuplicatedError => 400
  | .InternalServerError => 500
  | .DatabaseError => 400
  | .DatabaseIntegrityError => 400

/-- The spec's §3 table, label (`error.type`) column. -/
def specTypeOf : ExceptionKind → String
  | .BadValueError => "BadValueErr"
  | .NotFoundError => "NotFound"
  | .DuplicatedError => "DuplicatedEntry"
  | .InternalServerError => "UnknownErr"
  | .DatabaseError => "DatabaseErr"
  | .DatabaseIntegrityError => "DatabaseIntegrityErr"

/-- Each handler's fixed message prefix (the `text` literal in its source body). -/
def handlerPrefix : ExceptionKind → String
  | .BadValueError => "Bad Value error"
  | .NotFoundError => "Not found"
  | .DuplicatedError => "Duplicated entry"
  | .InternalServerError => "Unknown error"
  | .DatabaseError => "Database error"
  | .DatabaseIntegrityError => "Database Integrity error"

/-! ## `src/src/xeez_pyutils/sqlalchemy_repository.py`

The SQLAlchemy session is modelled as an outcome oracle (`SessionBehavior`): each
session-level call either succeeds with a value or raises a library error (`SqlErr`).
`IntegrityError` is a subclass of `SQLAlchemyError`; since every `try` block checks
`except IntegrityError` first, the two cases are represented disjointly. Each
repository operation returns its `Except` result together with the ordered list of
session-level events it performed (a raised exception is itself recorded as the final
event), so ordering of `rollback` relative to `raise` is visible. The `logger.error`
calls touch no session state and are not modelled. -/

/-- A `pydantic.ValidationError`, represented by its `args`. -/
structure PydanticValidationError where
  args : List String
deriving DecidableEq, Repr

/-- A `sqlalchemy.exc` failure as discriminated by the `except` clauses:
`IntegrityError` or any other `SQLAlchemyError`, each carrying its `args`. -/
inductive SqlErr where
  | integrityError (args : List String)
  | sqlalchemyError (args : List String)
deriving DecidableEq, Repr

/-- A Python exception the repository can raise. `typeError` models calling a `None`
`self.model_type` in `create` (uncaught by the `except` clauses there). -/
inductive PyExc where
  | internalServerError (fixedMessage : String) (causeArgs : List String)
  | databaseIntegrityError (causeArgs : List String)
  | databaseError (causeArgs : List String)
  | typeError
deriving DecidableEq, Repr

/-- A model class (`Type[ModelType]`): calling it on an input mapping
(`self.model_type(**obj_in)`) either builds an instance or raises a
`pydantic.ValidationError`. -/
structure ModelClass (ObjIn M : Type) where
  call : ObjIn → Except PydanticValidationError M

/-- A session-level event performed by a repository operation, in program order. -/
inductive Event (ObjIn M : Type) where
  | queried (target : ModelClass ObjIn M)
  | add
  | commit
  | refresh
  | deleted
  | rollback
  | raised (e : PyExc)

/-- Outcome oracle for one repository call: what each session-level operation would
return or raise. `queryFirst` models `query(target).filter_by(id=id).first()`;
`queryAll` models `query(target).offset(skip).limit(limit).all()`. -/
structure SessionBehavior (ObjIn M I : Type) where
  queryFirst : ModelClass ObjIn M → I → Except SqlErr (Option M)
  queryAll : ModelClass ObjIn M → Int → Int → Except SqlErr (List M)
  add : M → Except SqlErr Unit
  commit : Except SqlErr Unit
  refresh : M → Except SqlErr Unit
  delete : M → Except SqlErr Unit

/-- `SQLAlchemyRepository.__init__` (lines 33-35): stores `session` and `model_type`.
The attribute is kept as an `Option` because the source's read sites guard it with
Python truthiness (`self.model_type or model_type`), anticipating a `None` value. -/
structure SQLAlchemyRepository (ObjIn M I : Type) where
  session : SessionBehavior ObjIn M I
  model_type : Option (ModelClass ObjIn M)

/-- The expression `self.model_type or model_type` (lines 49 and 79): a class object
is truthy and `None` is falsy, so the construction-time value wins whenever set. -/
def queryTarget {ObjIn M : Type} (self_model_type : Option (ModelClass ObjIn M))
    (model_type : ModelClass ObjIn M) : ModelClass ObjIn M :=
  self_model_type.getD model_type

/-- The two `except` clauses shared verbatim by all five operations:
`except IntegrityError: rollback; raise DatabaseIntegrityError(e.args)` and
`except SQLAlchemyError: rollback; raise DatabaseError(e.args)`. `pre` holds the
events already performed inside the `try` block. -/
def dbExceptClauses {ObjIn M α : Type} (pre : List (Event ObjIn M)) (e : SqlErr) :
    Except PyExc α × List (Event ObjIn M) :=
  match e with
  | .integrityError args =>
    (.error (.databaseIntegrityError args),
     pre ++ [.rollback, .raised (.databaseIntegrityError args)])
  | .sqlalchemyError args =>
    (.error (.databaseError args),
     pre ++ [.rollback, .raised (.databaseError args)])

/-- The classification performed by those `except` clauses, cause args preserved. -/
def classifySqlErr : SqlErr → PyExc
  | .integrityError args => .databaseIntegrityError args
  | .sqlalchemyError args => .databaseError args

/-- `SQLAlchemyRepository.get` (lines 37-61). -/
def SQLAlchemyRepository.get {ObjIn M I : Type} (self : SQLAlchemyRepository ObjIn M I)
    (model_type : ModelClass ObjIn M) (id : I) :
    Except PyExc (Option M) × List (Event ObjIn M) :=
  let target := queryTarget self.model_type model_type
  match self.session.queryFirst target id with
  | .ok result => (.ok result, [.queried target])
  | .error e => dbExceptClauses [] e

/-- `SQLAlchemyRepository.get_multi` (lines 63-92). -/
def SQLAlchemyRepository.get_multi {ObjIn M I : Type}
    (self : SQLAlchemyRepository ObjIn M I) (model_type : ModelClass ObjIn M)
    (skip : Int := 0) (limit : Int := 10) :
    Except PyExc (List M) × List (Event ObjIn M) :=
  let target := queryTarget self.model_type model_type
  match self.session.queryAll target skip limit with
  | .ok result => (.ok result, [.queried target])
  | .error e => dbExceptClauses [] e

/-- The fixed first argument of the `InternalServerError` raised in `create`. -/
def createParseErrorText : String :=
  "Erro inesperado ao fazer o parsing para o modelo"

/-- `SQLAlchemyRepository.create` (lines 94-122). The `db_obj` parameter is
immediately shadowed by `db_obj = self.model_type(**obj_in)`; a `ValidationError`
there is re-raised as `InternalServerError` with no rollback, while session failures
go through the shared `except` clauses. -/
def SQLAlchemyRepository.create {ObjIn M I : Type}
    (self : SQLAlchemyRepository ObjIn M I) (db_obj : M) (obj_in : ObjIn) :
    Except PyExc M × List (Event ObjIn M) :=
  match self.model_type with
  | none => (.error .typeError, [.raised .typeError])
  | some cls =>
    match cls.call obj_in with
    | .error e =>
      (.error (.internalServerError createParseErrorText e.args),
       [.raised (.internalServerError createParseErrorText e.args)])
    | .ok obj =>
      match self.session.add obj with
      | .error e => dbExceptClauses [] e
      | .ok _ =>
        match self.session.commit with
        | .error e => dbExceptClauses [.add] e
        | .ok _ =>
          match self.session.refresh obj with
          | .error e => dbExceptClauses [.add, .commit] e
          | .ok _ => (.ok obj, [.add, .commit, .refresh])

/-- `SQLAlchemyRepository.update` (lines 124-148). `applyFields` models the
`setattr` loop (a pure field-by-field overwrite of `db_obj` from `obj_in`). -/
def SQLAlchemyRepository.update {ObjIn M I : Type}
    (self : SQLAlchemyRepository ObjIn M I) (applyFields : M → ObjIn → M)
    (db_obj : M) (obj_in : ObjIn) :
    Except PyExc Unit × List (Event ObjIn M) :=
  let obj := applyFields db_obj obj_in
  match self.session.add obj with
  | .error e => dbExceptClauses [] e
  | .ok _ =>
    match self.session.commit with
    | .error e => dbExceptClauses [.add] e
    | .ok _ =>
      match self.session.refresh obj with
      | .error e => dbExceptClauses [.add, .commit] e
      | .ok _ => (.ok (), [.add, .commit, .refresh])

/-- `SQLAlchemyRepository.delete` (lines 150-170). -/
def SQLAlchemyRepository.delete {ObjIn M I : Type}
    (self : SQLAlchemyRepository ObjIn M I) (db_obj : M) :
    Except PyExc Unit × List (Event ObjIn M) :=
  match self.session.delete db_obj with
  | .error e => dbExceptClauses [] e
  | .ok _ =>
    match self.session.commit with
    | .error e => dbExceptClauses [.deleted] e
    | .ok _ => (.ok (), [.deleted, .commit])

/-- Whether an event is the raising of one of the two database-classified
exceptions (the transaction-aborting raises). -/
def isDbRaise {ObjIn M : Type} : Event ObjIn M → Bool
  | .raised (.databaseIntegrityError _) => true
  | .raised (.databaseError _) => true
  | _ => false

/-- Whether a trace contains a `rollback` event. -/
def hasRollback {ObjIn M : Type} : List (Event ObjIn M) → Bool
  | [] => false
  | .rollback :: _ => true
  | _ :: rest => hasRollback rest

/-- Every database-classified raise in the trace is strictly preceded by a
`rollback` event. -/
def rollbackPrecedesDbRaise {ObjIn M : Type} : List (Event ObjIn M) → Bool
  | [] => true
  | .rollback :: _ => true
  | e :: rest => !(isDbRaise e) && rollbackPrecedesDbRaise rest

end XeezPyUtils

namespace XeezPyUtils

/-- Modelled from the spec: §4.3 success-path envelope construction (`success=true`,
`data=<result>`, `error` absent). The success path lives in services/routers outside
`src/`; only the error handlers appear in the source. -/
def mkSuccessResponse {T : Type} (v : T) : ResponseModel T :=
  { success := true, data := some v, error := none }

/-- C1: for every one of the six error kinds, the registered handler exists and, on any
request and any exception instance of that kind, returns a response whose status code
and `error.type` are exactly the pair given in the spec's §3 table. -/
theorem claim1_handlers_match_spec_table
    (k : ExceptionKind) (r : Request) (e : ExcInstance) :
    ∃ h, handlerFor k = some h ∧
      (h r e).status_code = specStatusOf k ∧
      ∃ em, (h r e).content.error = some em ∧ em.type = some (specTypeOf k) := by
  cases k <;>
    exact ⟨_, rfl, rfl, _, rfl, rfl⟩

/-- C2: for every error kind and every exception instance, the registered handler's
`error.message` is exactly the fixed prefix when `str(exc)` is empty and
`prefix ++ ":" ++ str(exc)` otherwise; no fixed prefix itself ends in a colon, so the
empty case carries no trailing colon. -/
theorem claim2_message_prefix_colon
    (k : ExceptionKind) (r : Request) (e : ExcInstance) :
    ∃ h, handlerFor k = some h ∧
      (∃ em, (h r e).content.error = some em ∧
        em.message =
          (if e.str = "" then handlerPrefix k
           else handlerPrefix k ++ ":" ++ e.str)) ∧
      (handlerPrefix k).data.getLast? ≠ some ':' := by
  cases k <;>
    refine ⟨_, rfl, ⟨_, rfl, ?_⟩, by decide⟩ <;>
    · by_cases hs : e.str = "" <;> simp [hs, bad_value_error_exception_handler,
        not_found_exception_handler, duplicated_exception_handler,
        internal_server_error_exception_handler, database_error_exception_handler,
        database_integrity_error_exception_handler, handlerPrefix]

/-- C3 counterexample: the registration list's insertion order is NOT the spec's §3
table order (`DatabaseError` is registered before `DatabaseIntegrityError`). -/
theorem claim3_counterexample :
    exception_to_handler_list.map Prod.fst ≠
      [.BadValueError, .NotFoundError, .DuplicatedError, .InternalServerError,
       .DatabaseIntegrityError, .DatabaseError] := by
  decide

/-- C3 amended: the registration table contains exactly one (kind, handler) pair per
error kind, and its insertion order is BadValue, NotFound, Duplicated,
InternalServerError, DatabaseError, DatabaseIntegrityError — the §3 table order with
the last two entries swapped. -/
theorem claim3_amended_registration_order :
    exception_to_handler_list.map Prod.fst =
      [.BadValueError, .NotFoundError, .DuplicatedError, .InternalServerError,
       .DatabaseError, .DatabaseIntegrityError] ∧
    ∀ k : ExceptionKind, (exception_to_handler_list.map Prod.fst).count k = 1 := by
  refine ⟨rfl, fun k => ?_⟩
  cases k <;> rfl

/-- C7: every handler-built (error-path) envelope has `success = false`, a populated
`error`, and absent `data`; every success-path envelope wrapping `V` has
`success = true`, `data = V`, and absent `error`; the two shapes disagree on
`success`, so they are mutually exclusive. -/
theorem claim7_envelope_shapes
    (k : ExceptionKind) (r : Request) (e : ExcInstance) {T : Type} (v : T) :
    (∃ h, handlerFor k = some h ∧
      (h r e).content.success = false ∧
      (∃ em, (h r e).content.error = some em) ∧
      (h r e).content.data = none) ∧
    (mkSuccessResponse v).success = true ∧
    (mkSuccessResponse v).data = some v ∧
    (mkSuccessResponse v).error = none := by
  refine ⟨?_, rfl, rfl, rfl⟩
  cases k <;> exact ⟨_, rfl, rfl, ⟨_, rfl⟩, rfl⟩

/-- C8: each registered handler is a pure function of the exception alone — its output
is identical across distinct requests carrying the same exception, and repeated
invocation on the same pair yields the identical response body. -/
theorem claim8_handler_request_independent
    (k : ExceptionKind) (r₁ r₂ : Request) (e : ExcInstance) :
    ∃ h, handlerFor k = some h ∧ h r₁ e = h r₂ e ∧ h r₁ e = h r₁ e := by
  cases k <;> exact ⟨_, rfl, rfl, rfl⟩

/-- C4: when building the model from `obj_in` raises a `ValidationError` during
`create`, the operation raises `InternalServerError` carrying the fixed message and
the cause's args, and performs no session event at all — in particular no rollback. -/
theorem claim4_create_validation_error_no_rollback
    {ObjIn M I : Type} (sess : SessionBehavior ObjIn M I)
    (ve : PydanticValidationError) (d : M) (objIn : ObjIn) :
    (SQLAlchemyRepository.mk sess (some ⟨fun _ => Except.error ve⟩)).create d objIn =
      (.error (.internalServerError createParseErrorText ve.args),
       [.raised (.internalServerError createParseErrorText ve.args)]) ∧
    hasRollback
      ((SQLAlchemyRepository.mk sess (some ⟨fun _ => Except.error ve⟩)).create d objIn).2
      = false :=
  ⟨rfl, rfl⟩

/-- C5: at every storage-failure site of the five operations (the query of `get`, the
query of `get_multi`, add/commit/refresh of `create` and of `update`, delete/commit of
`delete`), the raised exception is exactly `classifySqlErr` of the library error:
`DatabaseIntegrityError` with the cause's args for an `IntegrityError`, and
`DatabaseError` with the cause's args for any other `SQLAlchemyError`. -/
theorem claim5_storage_failure_classification
    {ObjIn M I : Type} (sess : SessionBehavior ObjIn M I) (e : SqlErr)
    (mtOpt : Option (ModelClass ObjIn M)) (mt : ModelClass ObjIn M) (id : I)
    (sk lim : Int) (obj d : M) (objIn : ObjIn) (applyF : M → ObjIn → M) :
    ((SQLAlchemyRepository.mk { sess with queryFirst := fun _ _ => .error e } mtOpt).get
        mt id).1 = .error (classifySqlErr e) ∧
    ((SQLAlchemyRepository.mk { sess with queryAll := fun _ _ _ => .error e } mtOpt).get_multi
        mt sk lim).1 = .error (classifySqlErr e) ∧
    ((SQLAlchemyRepository.mk { sess with add := fun _ => .error e }
        (some ⟨fun _ => Except.ok obj⟩)).create d objIn).1 = .error (classifySqlErr e) ∧
    ((SQLAlchemyRepository.mk { sess with add := fun _ => .ok (), commit := .error e }
        (some ⟨fun _ => Except.ok obj⟩)).create d objIn).1 = .error (classifySqlErr e) ∧
    ((SQLAlchemyRepository.mk
        { sess with add := fun _ => .ok (), commit := .ok (), refresh := fun _ => .error e }
        (some ⟨fun _ => Except.ok obj⟩)).create d objIn).1 = .error (classifySqlErr e) ∧
    ((SQLAlchemyRepository.mk { sess with add := fun _ => .error e } mtOpt).update
        applyF d objIn).1 = .error (classifySqlErr e) ∧
    ((SQLAlchemyRepository.mk { sess with add := fun _ => .ok (), commit := .error e }
        mtOpt).update applyF d objIn).1 = .error (classifySqlErr e) ∧
    ((SQLAlchemyRepository.mk
        { sess with add := fun _ => .ok (), commit := .ok (), refresh := fun _ => .error e }
        mtOpt).update applyF d objIn).1 = .error (classifySqlErr e) ∧
    ((SQLAlchemyRepository.mk { sess with delete := fun _ => .error e } mtOpt).delete
        d).1 = .error (classifySqlErr e) ∧
    ((SQLAlchemyRepository.mk { sess with delete := fun _ => .ok (), commit := .error e }
        mtOpt).delete d).1 = .error (classifySqlErr e) := by
  cases e <;>
    exact ⟨rfl, rfl, rfl, rfl, rfl, rfl, rfl, rfl, rfl, rfl⟩

/-- C6: for every session behaviour and every input, in each of the five operations
every database-classified raise in the event trace is strictly preceded by a
`rollback` event — the abort happens before the exception propagates. -/
theorem claim6_rollback_precedes_raise
    {ObjIn M I : Type} (repo : SQLAlchemyRepository ObjIn M I)
    (mt : ModelClass ObjIn M) (id : I) (sk lim : Int) (d : M) (objIn : ObjIn)
    (applyF : M → ObjIn → M) :
    rollbackPrecedesDbRaise (repo.get mt id).2 = true ∧
    rollbackPrecedesDbRaise (repo.get_multi mt sk lim).2 = true ∧
    rollbackPrecedesDbRaise (repo.create d objIn).2 = true ∧
    rollbackPrecedesDbRaise (repo.update applyF d objIn).2 = true ∧
    rollbackPrecedesDbRaise (repo.delete d).2 = true := by
  refine ⟨?_, ?_, ?_, ?_, ?_⟩
  · rcases hq : repo.session.queryFirst (queryTarget repo.model_type mt) id with e | r
    · simp only [SQLAlchemyRepository.get, hq]
      cases e <;> rfl
    · simp only [SQLAlchemyRepository.get, hq]
      rfl
  · rcases hq : repo.session.queryAll (queryTarget repo.model_type mt) sk lim with e | r
    · simp only [SQLAlchemyRepository.get_multi, hq]
      cases e <;> rfl
    · simp only [SQLAlchemyRepository.get_multi, hq]
      rfl
  · rcases hm : repo.model_type with _ | cls
    · simp only [SQLAlchemyRepository.create, hm]
      rfl
    · rcases hc : cls.call objIn with ve | obj
      · simp only [SQLAlchemyRepository.create, hm, hc]
        rfl
      · rcases ha : repo.session.add obj with e | u
        · simp only [SQLAlchemyRepository.create, hm, hc, ha]
          cases e <;> rfl
        · rcases hco : repo.session.commit with e | u'
          · simp only [SQLAlchemyRepository.create, hm, hc, ha, hco]
            cases e <;> rfl
          · rcases hr : repo.session.refresh obj with e | u''
            · simp only [SQLAlchemyRepository.create, hm, hc, ha, hco, hr]
              cases e <;> rfl
            · simp only [SQLAlchemyRepository.create, hm, hc, ha, hco, hr]
              rfl
  · rcases ha : repo.session.add (applyF d objIn) with e | u
    · simp only [SQLAlchemyRepository.update, ha]
      cases e <;> rfl
    · rcases hco : repo.session.commit with e | u'
      · simp only [SQLAlchemyRepository.update, ha, hco]
        cases e <;> rfl
      · rcases hr : repo.session.refresh (applyF d objIn) with e | u''
        · simp only [SQLAlchemyRepository.update, ha, hco, hr]
          cases e <;> rfl
        · simp only [SQLAlchemyRepository.update, ha, hco, hr]
          rfl
  · rcases hd : repo.session.delete d with e | u
    · simp only [SQLAlchemyRepository.delete, hd]
      cases e <;> rfl
    · rcases hco : repo.session.commit with e | u'
      · simp only [SQLAlchemyRepository.delete, hd, hco]
        cases e <;> rfl
      · simp only [SQLAlchemyRepository.delete, hd, hco]
        rfl

/-- C9: in `get` and `get_multi`, the query target is
`self.model_type or model_type`: the construction-time type whenever it is set, the
per-call argument only otherwise; the issued query (observed through its result and
through the trace's `queried` event) is against that target. -/
theorem claim9_construction_time_model_type_precedence
    {ObjIn M I : Type} (c mt : ModelClass ObjIn M) (sess : SessionBehavior ObjIn M I)
    (mtOpt : Option (ModelClass ObjIn M)) (id : I) (sk lim : Int)
    (f : ModelClass ObjIn M → Option M) (g : ModelClass ObjIn M → List M) :
    queryTarget (some c) mt = c ∧
    queryTarget none mt = mt ∧
    (SQLAlchemyRepository.mk { sess with queryFirst := fun t _ => .ok (f t) } mtOpt).get
        mt id =
      (.ok (f (queryTarget mtOpt mt)), [.queried (queryTarget mtOpt mt)]) ∧
    (SQLAlchemyRepository.mk { sess with queryAll := fun t _ _ => .ok (g t) } mtOpt).get_multi
        mt sk lim =
      (.ok (g (queryTarget mtOpt mt)), [.queried (queryTarget mtOpt mt)]) :=
  ⟨rfl, rfl, rfl, rfl⟩

/-- C10: `create` ignores its `db_obj` parameter entirely — any two values of it give
the same result and the same event trace — and on a fully successful session the
returned object is exactly the one built from `obj_in` by the repository's model
type. -/
theorem claim10_create_ignores_db_obj
    {ObjIn M I : Type} (repo : SQLAlchemyRepository ObjIn M I) (d₁ d₂ : M)
    (objIn : ObjIn) (sess : SessionBehavior ObjIn M I) (obj : M) :
    repo.create d₁ objIn = repo.create d₂ objIn ∧
    (SQLAlchemyRepository.mk
        { sess with add := fun _ => .ok (), commit := .ok (), refresh := fun _ => .ok () }
        (some ⟨fun _ => Except.ok obj⟩)).create d₁ objIn =
      (.ok obj, [.add, .commit, .refresh]) :=
  ⟨rfl, rfl⟩

end XeezPyUtils
